import Mathlib

/-!  A shallow embedding of the Blacksmith broker client (the v2 client file of
the boss repository): the error types and classification predicates, the retry
wrapper, response classification, catalog lookup, the instance join, request
headers, the lazy transport initialization, and the poll-to-completion helper.

HTTP itself is abstracted as an oracle giving the outcome of each physical
attempt (the result the code's `doSingle` produces for attempt i: either a
response or a transport-level error), and `json.Unmarshal` of a response body
is abstracted as a decoder parameter `String → Option _` (`none` = the stdlib
call returns a non-nil error).  Durations are modelled in whole seconds. -/

namespace Boss

/-- Boolean list-prefix test (used to express Go `strings.Contains` below). -/
def isPre : List Char → List Char → Bool
  | [], _ => true
  | _ :: _, [] => false
  | a :: as, b :: bs => a == b && isPre as bs

/-- Substring search on character lists: some suffix of `hay` starts with
`needle`.  This is Go `strings.Contains hay needle`. -/
def containsSub : List Char → List Char → Bool
  | [], needle => needle.isEmpty
  | c :: rest, needle => isPre needle (c :: rest) || containsSub rest needle

/-- Go `strings.Contains s sub`. -/
def strContains (s sub : String) : Bool := containsSub s.toList sub.toList

/-- Go `strings.HasPrefix s pre`, expressed over the character list so that
it computes by kernel reduction. -/
def hasPrefixGo (s pre : String) : Bool := isPre pre.data s.data

/-- Go `strings.TrimSuffix s sfx`: drop one trailing occurrence of `sfx`
when present (expressed over the character list). -/
def trimSuffixGo (s sfx : String) : String :=
  if isPre sfx.data.reverse s.data.reverse then
    ⟨s.data.take (s.data.length - sfx.data.length)⟩
  else s

/-- `APIError` (client file lines 22-27): structured error from the blacksmith
API.  `status` is the Go `int` Status field (json:"-"). -/
structure APIError where
  status : Int
  code : String
  description : String
  errorCode : String
deriving Repr, DecidableEq

/-- `APIError.Error()` (lines 29-34). -/
def APIError.Err (e : APIError) : String :=
  if e.description ≠ "" then e.code ++ ": " ++ e.description else e.code

/-- A Go `error` value as this client produces them: a bare `APIError`, an
error wrapped by `fmt.Errorf("<context>: %w", inner)`, or any other error
carrying only a message.  A type assertion `err.(APIError)` succeeds exactly
on the `api` constructor (Go wrapping via `%w` yields a `*fmt.wrapError`,
a different dynamic type). -/
inductive GoErr where
  | api (e : APIError)
  | wrap (ctx : String) (inner : GoErr)
  | plain (msg : String)
deriving Repr, DecidableEq

/-- `err.Error()`: every wrap in this client is `fmt.Errorf("<ctx>: %w", e)`,
whose message is the context, a colon-space, then the inner message. -/
def GoErr.message : GoErr → String
  | .api e => e.Err
  | .wrap ctx inner => ctx ++ ": " ++ inner.message
  | .plain m => m

/-- `IsNotFound` (lines 36-42): true iff the dynamic type is `APIError` and
its status is 404 or its code is "NotFound".  The type assertion does not
unwrap `%w`-wrapped errors. -/
def IsNotFound : GoErr → Bool
  | .api a => a.status == 404 || a.code == "NotFound"
  | _ => false

/-- `Client.shouldRetry` (lines 204-219): an `APIError` is retried iff its
status is ≥ 500; any other error is retried iff its message contains one of
the three network-fault substrings. -/
def shouldRetry (e : GoErr) : Bool :=
  match e with
  | .api a => decide (500 ≤ a.status)
  | _ =>
    strContains e.message "connection refused" ||
    strContains e.message "timeout" ||
    strContains e.message "temporary failure"

/-- `Plan` (lines 88-94).  The `free`/`bindable` fields play no role in any
claim and are omitted. -/
structure Plan where
  id : String
  name : String
  description : String
deriving Repr, DecidableEq

/-- `Service` (lines 97-107), fields beyond id/name/plans elided (none of the
claims mention them). -/
structure Service where
  id : String
  name : String
  plans : List Plan
deriving Repr, DecidableEq

/-- `Catalog` (lines 110-112). -/
structure Catalog where
  services : List Service
deriving Repr, DecidableEq

/-- One pass of `Catalog.Plan`'s nested loops: walk the services in order;
for a service matching `sMatch`, return the first plan matching `pMatch`;
if a matching service has no matching plan, keep walking (the Go inner loop
falls through to the next service). -/
def findPass (sMatch : Service → Bool) (pMatch : Plan → Bool) : List Service → Option (Service × Plan)
  | [] => none
  | s :: rest =>
    if sMatch s then
      match s.plans.find? pMatch with
      | some p => some (s, p)
      | none => findPass sMatch pMatch rest
    else findPass sMatch pMatch rest

/-- `Catalog.Plan` (lines 114-135): pass one matches service and plan by ID,
pass two by name, and failure is `fmt.Errorf("service '%s' / plan '%s' not
found", service, plan)`. -/
def Catalog.Plan (c : Catalog) (service plan : String) : Except String (Service × Plan) :=
  match findPass (fun s => s.id == service) (fun p => p.id == plan) c.services with
  | some sp => .ok sp
  | none =>
    match findPass (fun s => s.name == service) (fun p => p.name == plan) c.services with
    | some sp => .ok sp
    | none =>
      .error ("service '" ++ service ++ "' / plan '" ++ plan ++ "' not found")

/-- An HTTP response as `doSingle` hands it back: status code, the status
line `res.Status` (e.g. "404 Not Found"), and the body `request` later reads
in full. -/
structure HResp where
  statusCode : Int
  statusLine : String
  body : String
deriving Repr, DecidableEq

/-- Outcome of physical attempt i, i.e. of the i-th call to `doSingle`
(lines 222-284): either a response (any status code — `doSingle` never turns
a status code into an error) or an error (marshal failure, URL failure, or a
transport failure wrapped as "HTTP request failed: %w"). -/
abbrev Oracle := Nat → Except GoErr HResp

/-- The transport created by the lazy-init block of `Client.do` (lines
148-165): an `http.Client` identified here by a creation counter, carrying
the timeout and TLS setting it was built with. -/
structure Transport where
  tid : Nat
  timeoutSecs : Int
  insecureSkipVerify : Bool
deriving Repr, DecidableEq

/-- `Client` (lines 61-85).  `ua` is the unexported transport field;
`timeoutSecs` models the `time.Duration` Timeout in seconds. -/
structure Client where
  url : String
  username : String
  password : String
  insecureSkipVerify : Bool
  debug : Bool
  trace : Bool
  timeoutSecs : Int
  maxRetries : Int
  brokerAPIVersion : String
  ua : Option Transport
deriving Repr, DecidableEq

/-- Ambient state outside any one client value: how many transports have been
created so far (each `&http.Client{...}` allocation gets the next id). -/
structure World where
  nextTid : Nat
deriving Repr, DecidableEq

/-- The lazy-initialization block at the top of `Client.do` (lines 148-165):
if `c.ua` is nil, build a transport (Timeout defaulted from 0 to 30s) and
strip one trailing slash from the URL.  Crucially `do` has a VALUE receiver
(`func (c Client) do(...)`), so these writes land on a copy of the caller's
client; this function returns that mutated copy, and the call-level models
below discard it exactly as Go does. -/
def Client.doInit (c : Client) (w : World) : Client × World :=
  match c.ua with
  | some _ => (c, w)
  | none =>
    let t : Int := if c.timeoutSecs = 0 then 30 else c.timeoutSecs
    ({ c with
        ua := some ⟨w.nextTid, t, c.insecureSkipVerify⟩,
        url := trimSuffixGo c.url "/" },
      ⟨w.nextTid + 1⟩)

/-- The transport one logical call (`Client.do` and everything below it) ends
up using, together with the world after the call.  The initialized copy of
the receiver is dropped when `do` returns: only the world persists. -/
def Client.doCallTransport (c : Client) (w : World) : Transport × World :=
  let (c2, w2) := c.doInit w
  (c2.ua.getD ⟨0, 0, false⟩, w2)

/-- What `Client.StreamTask` (lines 556-591) does with the transport: it uses
the stored `c.ua` directly (`c.ua.Do(req)`) without going through `do`, so a
nil `ua` is dereferenced and the process panics. -/
inductive StreamOutcome where
  | nilPanic
  | streamedWith (t : Transport)
deriving Repr, DecidableEq

/-- `Client.StreamTask`'s transport usage (line 574): panic on nil `ua`,
otherwise stream over the stored transport. -/
def Client.StreamTask (c : Client) : StreamOutcome :=
  match c.ua with
  | none => .nilPanic
  | some t => .streamedWith t

/-- State of the retry loop of `doWithRetry` when it exits: the successful
response if any, Go's `lastErr`, the backoff sleeps performed (in seconds, in
order), and the number of physical attempts made. -/
structure LoopOut where
  res : Option HResp
  lastE : Option GoErr
  sleeps : List Nat
  attempts : Nat
deriving Repr

/-- The `for attempt := 0; attempt <= maxRetries; attempt++` loop of
`doWithRetry` (lines 177-199): before every attempt but the first, sleep
`attempt * attempt` seconds; a nil-error attempt returns its response; a
failing attempt records `lastErr` and continues only if `shouldRetry`.
`fuel` is the number of loop iterations still allowed, `i` the Go `attempt`
counter. -/
def retryLoop (oracle : Oracle) : Nat → Nat → Option GoErr → LoopOut
  | 0, _, lastE => ⟨none, lastE, [], 0⟩
  | fuel + 1, i, lastE =>
    let sl : List Nat := if 0 < i then [i * i] else []
    match oracle i with
    | .ok r => ⟨some r, lastE, sl, 1⟩
    | .error e =>
      if shouldRetry e then
        let rest := retryLoop oracle fuel (i + 1) (some e)
        ⟨rest.res, rest.lastE, sl ++ rest.sleeps, rest.attempts + 1⟩
      else ⟨none, some e, sl, 1⟩

/-- Result of a whole `doWithRetry` call plus its observable retry trace. -/
structure RetryTrace where
  result : Except GoErr HResp
  sleeps : List Nat
  attempts : Nat
deriving Repr

/-- `Client.doWithRetry` (lines 171-202): MaxRetries 0 defaults to 3; up to
`maxRetries + 1` iterations; on failure the returned error is
`fmt.Errorf("request failed after %d attempts: %w", maxRetries+1, lastErr)`
(with `lastErr` nil — only possible when MaxRetries is negative — `%w`
renders as `%!w(<nil>)` and nothing is wrapped). -/
def Client.doWithRetry (c : Client) (oracle : Oracle) : RetryTrace :=
  let mr : Int := if c.maxRetries = 0 then 3 else c.maxRetries
  let out := retryLoop oracle (mr + 1).toNat 0 none
  match out.res with
  | some r => ⟨.ok r, out.sleeps, out.attempts⟩
  | none =>
    ⟨.error (match out.lastE with
      | some e => .wrap ("request failed after " ++ toString (mr + 1) ++ " attempts") e
      | none => .plain ("request failed after " ++ toString (mr + 1) ++ " attempts: %!w(<nil>)")),
      out.sleeps, out.attempts⟩

/-- The headers `doSingle` sets via `req.Header.Set` (lines 250-259): the
broker API version header only for paths under "/v2/" (empty configured
version defaulting to "2.16"), then Content-Type and Accept unconditionally.
(`req.SetBasicAuth` on line 260 is not a `Header.Set` call and carries no
claim; it is elided.) -/
def doSingleHeaders (brokerAPIVersion path : String) : List (String × String) :=
  (if hasPrefixGo path "/v2/" then
    [("X-Broker-API-Version", if brokerAPIVersion = "" then "2.16" else brokerAPIVersion)]
  else []) ++
  [("Content-Type", "application/json"), ("Accept", "application/json")]

/-- The path `Client.text` sends for `Task`/`StreamTask` (lines 548 and 557):
`fmt.Sprintf("/b/%s/task.log", id)`. -/
def taskLogPath (id : String) : String := "/b/" ++ id ++ "/task.log"

/-- What `Client.request` (lines 286-342) hands back: the status code it
returns, the decoded output value when the body was non-empty and decoded
(`none` = the caller-supplied `out` was left at its zero value), the error,
and the retry trace of the underlying `do` call. -/
structure ReqOut (α : Type) where
  status : Int
  out : Option α
  err : Option GoErr
  sleeps : List Nat
  attempts : Nat

/-- The fallback `APIError` `request` synthesizes for a non-JSON (or
code-less) error body (lines 326-333). -/
def fallbackAPIError (r : HResp) : APIError :=
  let base : APIError :=
    ⟨r.statusCode, "HTTPError", "HTTP " ++ toString r.statusCode ++ ": " ++ r.statusLine, ""⟩
  if 0 < r.body.length then
    { base with description := base.description ++ " - " ++ r.body }
  else base

/-- The status-classification tail of `request` (lines 312-341): a DELETE
answered 410 is success; a status ≥ 400 becomes an `APIError` (decoded from
the body when that yields a non-empty code, synthesized otherwise); a status
outside [200,299] but below 400 is a plain error; anything else is success. -/
def classifyStatus (decodeErr : String → Option APIError) (method : String) (r : HResp) : Option GoErr :=
  if method = "DELETE" ∧ r.statusCode = 410 then none
  else if 400 ≤ r.statusCode then
    some (.api (match decodeErr r.body with
      | some a => if a.code ≠ "" then { a with status := r.statusCode } else fallbackAPIError r
      | none => fallbackAPIError r))
  else if r.statusCode < 200 ∨ 299 < r.statusCode then
    some (.plain ("unexpected status " ++ toString r.statusCode ++ ": " ++ r.statusLine))
  else none

/-- `Client.request` (lines 286-342).  `decodeOut` is `json.Unmarshal` into
the caller's `out` (consulted only when `wantOut` — `out != nil` — and the
body is non-empty, exactly as on line 306); `decodeErr` is `json.Unmarshal`
into the `APIError`.  A `do`-level failure is wrapped "request failed"; an
output-unmarshal failure is wrapped "failed to parse response" and returned
BEFORE any status classification, as in the code. -/
def Client.request {α : Type} (c : Client) (decodeOut : String → Option α)
    (decodeErr : String → Option APIError) (method : String) (wantOut : Bool)
    (oracle : Oracle) : ReqOut α :=
  let tr := c.doWithRetry oracle
  match tr.result with
  | .error e => ⟨0, none, some (.wrap "request failed" e), tr.sleeps, tr.attempts⟩
  | .ok r =>
    let parsed : Except GoErr (Option α) :=
      if wantOut ∧ 0 < r.body.length then
        match decodeOut r.body with
        | some v => .ok (some v)
        | none => .error (.wrap "failed to parse response" (.plain "json unmarshal error"))
      else .ok none
    match parsed with
    | .error e => ⟨r.statusCode, none, some e, tr.sleeps, tr.attempts⟩
    | .ok o => ⟨r.statusCode, o, classifyStatus decodeErr method r, tr.sleeps, tr.attempts⟩

/-- `Client.Catalog` (lines 364-371): GET /v2/catalog with `out = &Catalog`,
wrapping any `request` error as "failed to get catalog"; when the body was
empty the zero-value catalog is returned. -/
def Client.CatalogOp (c : Client) (decodeCat : String → Option Catalog)
    (decodeErr : String → Option APIError) (oracle : Oracle) : Except GoErr Catalog :=
  let q := c.request decodeCat decodeErr "GET" true oracle
  match q.err with
  | some e => .error (.wrap "failed to get catalog" e)
  | none => .ok (q.out.getD ⟨[]⟩)

/-- `Client.Delete` (lines 537-543): DELETE with `out = nil`, errors wrapped
"failed to delete instance <id>". -/
def Client.Delete (c : Client) (decodeErr : String → Option APIError)
    (id : String) (oracle : Oracle) : Except GoErr Unit :=
  let q := c.request (α := Unit) (fun _ => none) decodeErr "DELETE" false oracle
  match q.err with
  | some e => .error (.wrap ("failed to delete instance " ++ id) e)
  | none => .ok ()

/-- One entry of the `/b/status` registry as `Instances` decodes it
(lines 429-436). -/
structure StatusEntry where
  planId : String
  serviceId : String
  state : String
  createdAt : Nat
  updatedAt : Nat
deriving Repr, DecidableEq

/-- `Instance` (lines 138-145): nullable Service/Plan references. -/
structure Instance where
  id : String
  service : Option Service
  plan : Option Plan
  state : String
  createdAt : Nat
  updatedAt : Nat
deriving Repr, DecidableEq

/-- The join loop of `Client.Instances` (lines 444-467): every registry entry
becomes an `Instance` keyed by its registry id; `cat.Plan(serviceID, planID)`
— the full two-pass resolver — supplies the references, and an entry the
resolver cannot place keeps nil Service/Plan (debug-only warning, not an
error, and the entry is still appended).  The subsequent in-place sort
(lines 469-482) only permutes the slice and is outside every claim, so it is
not modelled; `entries` stands for one iteration order of the Go map. -/
def Instances (cat : Catalog) (entries : List (String × StatusEntry)) : List Instance :=
  entries.map (fun e =>
    match cat.Plan e.2.serviceId e.2.planId with
    | .ok (s, p) =>
      ⟨e.1, some s, some p, e.2.state, e.2.createdAt, e.2.updatedAt⟩
    | .error _ =>
      ⟨e.1, none, none, e.2.state, e.2.createdAt, e.2.updatedAt⟩)

/-- The `{state, description}` body of the last_operation endpoint
(lines 681-684). -/
structure OpStatus where
  state : String
  description : String
deriving Repr, DecidableEq

/-- Per-tick outcomes of `c.request` against the last_operation endpoint:
element i is what the poll issued at tick i+1 (5·(i+1) seconds in) returns. -/
abbrev PollTrace := List (Except GoErr OpStatus)

/-- The ticker loop of `waitForOperation` (lines 679-715): each tick advances
the clock 5 seconds, then polls.  "succeeded" returns nil, "failed" and any
unrecognized state return hard errors, and only the "in progress" arm falls
through to the `time.Now().After(deadline)` check — so the deadline is tested
after a tick, never before one.  An exhausted trace stands for the
(unreachable in Go) end of the ticker channel, line 714. -/
def waitLoop (ddl : Nat) : Nat → PollTrace → Except GoErr Unit
  | _, [] => .error (.plain "unexpected end of operation polling")
  | t, p :: rest =>
    let tNow := t + 5
    match p with
    | .error e => .error (.wrap "failed to get operation status" e)
    | .ok st =>
      if st.state = "succeeded" then .ok ()
      else if st.state = "failed" then .error (.plain ("operation failed: " ++ st.description))
      else if st.state = "in progress" then
        if ddl < tNow then
          .error (.plain ("operation timed out after " ++ toString ddl ++ "s"))
        else waitLoop ddl tNow rest
      else .error (.plain ("unknown operation state: " ++ st.state))

/-- `Client.waitForOperation` (lines 670-715): a zero timeout defaults to 30
minutes (1800 s); polling starts at elapsed time 0. -/
def waitForOperation (timeout : Nat) (polls : PollTrace) : Except GoErr Unit :=
  let ddl := if timeout = 0 then 1800 else timeout
  waitLoop ddl 0 polls

/-- `Client.CreateAndWait` (lines 718-758): `createStatus`/`operation` are
the status code and decoded `operation` token of the PUT; polling happens
only when the status is 202 AND the token is non-empty, and its failure is
wrapped "instance creation failed"; otherwise the instance id is returned
synchronously. -/
def CreateAndWait (id : String) (createRes : Except GoErr (Int × String))
    (timeout : Nat) (polls : PollTrace) : Except GoErr String :=
  match createRes with
  | .error e => .error (.wrap "failed to create instance" e)
  | .ok (status, operation) =>
    if status = 202 ∧ operation ≠ "" then
      match waitForOperation timeout polls with
      | .error e => .error (.wrap "instance creation failed" e)
      | .ok _ => .ok id
    else .ok id

/-! ## Concrete fixtures used by the closed theorems below -/

/-- A freshly constructed client: every tunable at its zero value, `ua` nil. -/
def c0 : Client :=
  ⟨"https://boss.example.com/", "admin", "secret", false, false, false, 0, 0, "", none⟩

/-- A transport answering HTTP 500 on the first two attempts and 200 afterwards. -/
def oracle500 : Oracle := fun i =>
  if i < 2 then .ok ⟨500, "500 Internal Server Error", ""⟩ else .ok ⟨200, "200 OK", ""⟩

/-- A transport answering HTTP 404 with an empty body on every attempt. -/
def oracle404 : Oracle := fun _ => .ok ⟨404, "404 Not Found", ""⟩

/-- A one-service, one-plan catalog whose IDs and names differ. -/
def cat1 : Catalog := ⟨[⟨"svc-id", "svc-name", [⟨"plan-id", "plan-name", "d"⟩]⟩]⟩

/-- Flattened (service, plan) pairs of a catalog: services in catalog order,
plans in service order.  This is the spec's reading of one lookup pass: scan
the canonical pairs in order for the first whose keys both match. -/
def catalogPairs (c : Catalog) : List (Service × Plan) :=
  (c.services.map (fun s => s.plans.map (fun p => (s, p)))).flatten

/-- A poll outcome reporting state "in progress". -/
def pollInProgress : Except GoErr OpStatus → Bool
  | .ok st => st.state == "in progress"
  | .error _ => false

/-- A poll outcome reporting state "succeeded". -/
def pollSucceeded : Except GoErr OpStatus → Bool
  | .ok st => st.state == "succeeded"
  | .error _ => false

/-! ## Theorems -/

/-! ## Retry-loop helper lemmas -/

/-- An attempt the oracle answers with a response ends the loop at once. -/
theorem retryLoop_first_ok (oracle : Oracle) (r : HResp) (fuel i : Nat) (lastE : Option GoErr)
    (h : oracle i = .ok r) :
    retryLoop oracle (fuel + 1) i lastE = ⟨some r, lastE, if 0 < i then [i * i] else [], 1⟩ := by
  simp [retryLoop, h]

/-- A non-retryable failing attempt breaks out of the loop at once. -/
theorem retryLoop_first_stop (oracle : Oracle) (e : GoErr) (fuel i : Nat) (lastE : Option GoErr)
    (h : oracle i = .error e) (hs : shouldRetry e = false) :
    retryLoop oracle (fuel + 1) i lastE = ⟨none, some e, if 0 < i then [i * i] else [], 1⟩ := by
  simp [retryLoop, h, hs]

/-- Against an oracle that always fails with the same retryable error, the
loop consumes all its fuel, one attempt per unit. -/
theorem retryLoop_attempts_const_fail (e : GoErr) (hs : shouldRetry e = true) :
    ∀ (fuel i : Nat) (lastE : Option GoErr),
      (retryLoop (fun _ => .error e) fuel i lastE).attempts = fuel := by
  intro fuel
  induction fuel with
  | zero => intro i lastE; rfl
  | succ n ih => intro i lastE; simp [retryLoop, hs, ih]

/-- With a non-negatively configured MaxRetries, a first attempt that yields a
response makes `doWithRetry` return it: one attempt, no sleeps. -/
theorem doWithRetry_first_ok (c : Client) (oracle : Oracle) (r : HResp)
    (hmr : 0 ≤ c.maxRetries) (h : oracle 0 = .ok r) :
    c.doWithRetry oracle = ⟨.ok r, [], 1⟩ := by
  obtain ⟨k, hk⟩ : ∃ k, ((if c.maxRetries = 0 then 3 else c.maxRetries) + 1).toNat = k + 1 := by
    refine ⟨((if c.maxRetries = 0 then 3 else c.maxRetries) + 1).toNat - 1, ?_⟩
    split <;> omega
  unfold Client.doWithRetry
  dsimp only
  rw [hk, retryLoop_first_ok oracle r k 0 none h]
  simp

/-- With a non-negatively configured MaxRetries, a first attempt failing
non-retryably makes `doWithRetry` stop after that one attempt, yet report the
full `maxRetries + 1` attempt budget in its error. -/
theorem doWithRetry_first_stop (c : Client) (oracle : Oracle) (e : GoErr)
    (hmr : 0 ≤ c.maxRetries) (h : oracle 0 = .error e) (hs : shouldRetry e = false) :
    c.doWithRetry oracle =
      ⟨.error (.wrap ("request failed after " ++
          toString ((if c.maxRetries = 0 then 3 else c.maxRetries) + 1) ++ " attempts") e),
        [], 1⟩ := by
  obtain ⟨k, hk⟩ : ∃ k, ((if c.maxRetries = 0 then 3 else c.maxRetries) + 1).toNat = k + 1 := by
    refine ⟨((if c.maxRetries = 0 then 3 else c.maxRetries) + 1).toNat - 1, ?_⟩
    split <;> omega
  unfold Client.doWithRetry
  dsimp only
  rw [hk, retryLoop_first_stop oracle e k 0 none h hs]
  simp

/-- A first-attempt response with nothing to unmarshal (nil `out` or empty
body) flows straight into status classification. -/
theorem request_ok_resp (c : Client) {α : Type} (decodeOut : String → Option α)
    (decodeErr : String → Option APIError) (method : String) (wantOut : Bool)
    (oracle : Oracle) (r : HResp)
    (hmr : 0 ≤ c.maxRetries) (h : oracle 0 = .ok r) (hb : ¬(wantOut ∧ 0 < r.body.length)) :
    c.request decodeOut decodeErr method wantOut oracle =
      ⟨r.statusCode, none, classifyStatus decodeErr method r, [], 1⟩ := by
  unfold Client.request
  rw [doWithRetry_first_ok c oracle r hmr h]
  simp [hb]

/-- A first-attempt response whose body unmarshals into the output target
flows into status classification carrying the decoded value. -/
theorem request_ok_resp_decoded (c : Client) {α : Type} (decodeOut : String → Option α)
    (decodeErr : String → Option APIError) (method : String)
    (oracle : Oracle) (r : HResp) (v : α)
    (hmr : 0 ≤ c.maxRetries) (h : oracle 0 = .ok r) (hlen : 0 < r.body.length)
    (hd : decodeOut r.body = some v) :
    c.request decodeOut decodeErr method true oracle =
      ⟨r.statusCode, some v, classifyStatus decodeErr method r, [], 1⟩ := by
  unfold Client.request
  rw [doWithRetry_first_ok c oracle r hmr h]
  simp [hlen, hd]

/-- A non-410-DELETE response with status ≥ 400 classifies as an `APIError`
built from the body when it decodes with a non-empty code, synthesized
otherwise. -/
theorem classifyStatus_ge400 (decodeErr : String → Option APIError) (method : String) (r : HResp)
    (hm : ¬(method = "DELETE" ∧ r.statusCode = 410)) (h4 : 400 ≤ r.statusCode) :
    classifyStatus decodeErr method r = some (.api (match decodeErr r.body with
      | some a => if a.code ≠ "" then { a with status := r.statusCode } else fallbackAPIError r
      | none => fallbackAPIError r)) := by
  unfold classifyStatus
  rw [if_neg hm, if_pos h4]

/-- Whatever branch built it, the classified `APIError` of a ≥ 400 response
carries that response's status code. -/
theorem classifyStatus_ge400_status (decodeErr : String → Option APIError) (method : String) (r : HResp)
    (hm : ¬(method = "DELETE" ∧ r.statusCode = 410)) (h4 : 400 ≤ r.statusCode) :
    ∃ a : APIError, classifyStatus decodeErr method r = some (.api a) ∧ a.status = r.statusCode := by
  rw [classifyStatus_ge400 decodeErr method r hm h4]
  cases hd : decodeErr r.body with
  | none => exact ⟨fallbackAPIError r, rfl, by simp [fallbackAPIError]; split <;> rfl⟩
  | some a =>
    by_cases hc : a.code ≠ ""
    · exact ⟨{ a with status := r.statusCode }, by simp [hc], rfl⟩
    · exact ⟨fallbackAPIError r, by simp [hc], by simp [fallbackAPIError]; split <;> rfl⟩

/-- An `APIError` with status 404 satisfies `IsNotFound`. -/
theorem IsNotFound_status_404 (a : APIError) (h : a.status = 404) :
    IsNotFound (.api a) = true := by
  simp [IsNotFound, h]

/-- C1: the code violates this claim.  With MaxRetries = 2 against a transport
answering HTTP 500, 500, then 200, the logical call makes exactly ONE physical
attempt, never sleeps, and returns the 500 as an `APIError` instead of
retrying to the eventual success: `doSingle` does not turn an HTTP status
code into a Go error, so `doWithRetry` sees a nil error and returns the 500
response at once — status classification happens above the retry loop, in
`request`, making `shouldRetry`'s `APIError.Status >= 500` branch unreachable
from the loop it is meant to guard. -/
theorem C1_http500_never_retried :
    (({ c0 with maxRetries := 2 }).request (α := Catalog)
        (fun _ => none) (fun _ => none) "GET" true oracle500).attempts = 1 ∧
    (({ c0 with maxRetries := 2 }).request (α := Catalog)
        (fun _ => none) (fun _ => none) "GET" true oracle500).sleeps = [] ∧
    (({ c0 with maxRetries := 2 }).request (α := Catalog)
        (fun _ => none) (fun _ => none) "GET" true oracle500).status = 500 ∧
    (({ c0 with maxRetries := 2 }).request (α := Catalog)
        (fun _ => none) (fun _ => none) "GET" true oracle500).err =
      some (.api ⟨500, "HTTPError", "HTTP 500: 500 Internal Server Error", ""⟩) :=
  ⟨rfl, rfl, rfl, rfl⟩

/-- C3: the code violates this claim.  `Client.do` initializes the transport
on a VALUE receiver, so the assignment to `c.ua` (and the URL slash-strip)
lands on a copy that is discarded when the call returns: two successive calls
on the same client value each create a fresh transport (ids 0 and 1 below),
and `StreamTask` — which reads `c.ua` directly instead of going through `do`
— dereferences the still-nil transport and panics no matter how many calls
preceded it. -/
theorem C3_transport_not_reused_and_streamtask_nil :
    (c0.doCallTransport ⟨0⟩).1.tid = 0 ∧
    (c0.doCallTransport (c0.doCallTransport ⟨0⟩).2).1.tid = 1 ∧
    (c0.doCallTransport ⟨0⟩).1.tid ≠ (c0.doCallTransport (c0.doCallTransport ⟨0⟩).2).1.tid ∧
    (c0.doInit ⟨0⟩).1.url = "https://boss.example.com" ∧
    c0.StreamTask = .nilPanic :=
  ⟨rfl, rfl, by decide, rfl, rfl⟩

/-- C5 counterexample: the claim is false — the request built for the
plain-text task-log path does carry both JSON headers, because `doSingle`
sets Content-Type and Accept unconditionally (lines 258-259 sit outside the
`/v2/` conditional). -/
theorem C5_counterexample :
    ("Content-Type", "application/json") ∈ doSingleHeaders "" (taskLogPath "abc") ∧
    ("Accept", "application/json") ∈ doSingleHeaders "" (taskLogPath "abc") := by
  constructor <;> decide

/-- C5 amended: every request — plain-text retrievals included — carries the
JSON Content-Type and Accept headers; only the broker-API-version header is
conditional on the path. -/
theorem C5_amended (brokerAPIVersion path : String) :
    ("Content-Type", "application/json") ∈ doSingleHeaders brokerAPIVersion path ∧
    ("Accept", "application/json") ∈ doSingleHeaders brokerAPIVersion path := by
  unfold doSingleHeaders
  constructor <;> exact List.mem_append_right _ (by simp)

/-- C6: a DELETE answered HTTP 410 returns no error: the 410 short-circuit in
`request` (lines 312-315) fires before the ≥ 400 classification, and `Delete`
passes the nil error through. -/
theorem C6_delete_410_ok (c : Client) (decodeErr : String → Option APIError)
    (id statusLine body : String) (hmr : 0 ≤ c.maxRetries) :
    c.Delete decodeErr id (fun _ => .ok ⟨410, statusLine, body⟩) = .ok () := by
  unfold Client.Delete
  rw [request_ok_resp c (fun _ => none) decodeErr "DELETE" false _ ⟨410, statusLine, body⟩
      hmr rfl (by simp)]
  simp [classifyStatus]

/-- C6 witness: a concrete 410-answered delete on a fresh client. -/
theorem C6_witness :
    c0.Delete (fun _ => none) "7c2e9a" (fun _ => .ok ⟨410, "410 Gone", "gone"⟩) = .ok () :=
  C6_delete_410_ok c0 (fun _ => none) "7c2e9a" "410 Gone" "gone" (by decide)

/-- C10: when a request fails, `doWithRetry` reports the attempt count as the
full budget `maxRetries + 1` regardless of how many physical attempts were
made: a first-attempt non-retryable failure breaks the loop after one attempt
yet the error still says "request failed after maxRetries+1 attempts". -/
theorem C10_attempt_count_message (c : Client) (e : GoErr) (oracle : Oracle)
    (hm : 1 ≤ c.maxRetries) (h0 : oracle 0 = .error e) (hs : shouldRetry e = false) :
    (c.doWithRetry oracle).attempts = 1 ∧
    (c.doWithRetry oracle).result =
      .error (.wrap ("request failed after " ++ toString (c.maxRetries + 1) ++ " attempts") e) ∧
    ∀ e', (c.doWithRetry oracle).result = .error e' →
      e'.message = "request failed after " ++ toString (c.maxRetries + 1) ++ " attempts" ++ ": " ++ e.message := by
  have hne : ¬(c.maxRetries = 0) := by omega
  have h := doWithRetry_first_stop c oracle e (by omega) h0 hs
  rw [if_neg hne] at h
  refine ⟨by rw [h], by rw [h], ?_⟩
  intro e' he'
  rw [h] at he'
  cases he'
  rfl

/-- C10 witness: MaxRetries = 2, a non-retryable failure: one physical
attempt, but the error claims three. -/
theorem C10_witness :
    ({ c0 with maxRetries := 2 }.doWithRetry (fun _ => .error (.plain "boom"))).attempts = 1 ∧
    ({ c0 with maxRetries := 2 }.doWithRetry (fun _ => .error (.plain "boom"))).result =
      .error (.wrap "request failed after 3 attempts" (.plain "boom")) := by
  have h := C10_attempt_count_message { c0 with maxRetries := 2 } (.plain "boom")
    (fun _ => .error (.plain "boom")) (by decide) rfl (by decide)
  exact ⟨h.1, h.2.1⟩

/-- C2 counterexample: the claim as stated is false at this input.  A fresh
client whose transport answers 404 (empty body) on the first attempt: the
Catalog operation returns the `APIError` wrapped by
`fmt.Errorf("failed to get catalog: %w", err)`, and `IsNotFound` — a bare
type assertion that does not unwrap — is FALSE on the returned error. -/
theorem C2_counterexample :
    c0.CatalogOp (fun _ => none) (fun _ => none) oracle404 =
      .error (.wrap "failed to get catalog"
        (.api ⟨404, "HTTPError", "HTTP 404: 404 Not Found", ""⟩)) ∧
    IsNotFound (.wrap "failed to get catalog"
      (.api ⟨404, "HTTPError", "HTTP 404: 404 Not Found", ""⟩)) = false :=
  ⟨rfl, rfl⟩

/-- C2 amended: an operation whose underlying request is answered 404 on the
first attempt performs no further attempts (one physical attempt, no
backoff sleeps) and the request layer produces an `APIError` with status 404
for which `IsNotFound` is true; the operation itself (here `Catalog`)
re-wraps that error, and `IsNotFound` on the wrapped error it returns is
false, because the predicate's type assertion does not see through
`%w`-wrapping. -/
theorem C2_amended (c : Client) (decodeCat : String → Option Catalog)
    (decodeErr : String → Option APIError) (oracle : Oracle) (r : HResp)
    (hmr : 0 ≤ c.maxRetries) (h0 : oracle 0 = .ok r) (h404 : r.statusCode = 404)
    (hbody : r.body = "" ∨ ∃ v, decodeCat r.body = some v) :
    (c.request decodeCat decodeErr "GET" true oracle).attempts = 1 ∧
    (c.request decodeCat decodeErr "GET" true oracle).sleeps = [] ∧
    (∃ a : APIError, (c.request decodeCat decodeErr "GET" true oracle).err = some (.api a) ∧
      a.status = 404 ∧ IsNotFound (.api a) = true) ∧
    (∀ e, c.CatalogOp decodeCat decodeErr oracle = .error e → IsNotFound e = false) := by
  have hm : ¬("GET" = "DELETE" ∧ r.statusCode = 410) := by
    intro hc
    exact absurd hc.1 (by decide)
  have h4 : (400 : Int) ≤ r.statusCode := by rw [h404]; decide
  obtain ⟨a, ha, hst⟩ := classifyStatus_ge400_status decodeErr "GET" r hm h4
  have hreq : c.request decodeCat decodeErr "GET" true oracle =
      ⟨r.statusCode, (if 0 < r.body.length then decodeCat r.body else none),
        classifyStatus decodeErr "GET" r, [], 1⟩ := by
    rcases hbody with hb | ⟨v, hv⟩
    · rw [request_ok_resp c decodeCat decodeErr "GET" true oracle r hmr h0 (by simp [hb])]
      simp [hb]
    · by_cases hlen : 0 < r.body.length
      · rw [request_ok_resp_decoded c decodeCat decodeErr "GET" oracle r v hmr h0 hlen hv]
        simp [hlen, hv]
      · rw [request_ok_resp c decodeCat decodeErr "GET" true oracle r hmr h0 (by simp [hlen])]
        simp [hlen]
  refine ⟨by rw [hreq], by rw [hreq], ⟨a, by rw [hreq]; exact ha, by rw [h404] at hst; exact hst,
    IsNotFound_status_404 a (by rw [hst, h404])⟩, ?_⟩
  intro e he
  unfold Client.CatalogOp at he
  rw [hreq] at he
  simp only [ha] at he
  cases he
  rfl

/-- C2 witness: the amended statement at the concrete 404 fixture. -/
theorem C2_witness :
    (c0.request (α := Catalog) (fun _ => none) (fun _ => none) "GET" true oracle404).attempts = 1 ∧
    (∃ a : APIError,
      (c0.request (α := Catalog) (fun _ => none) (fun _ => none) "GET" true oracle404).err =
        some (.api a) ∧ a.status = 404 ∧ IsNotFound (.api a) = true) ∧
    (∀ e, c0.CatalogOp (fun _ => none) (fun _ => none) oracle404 = .error e →
      IsNotFound e = false) := by
  have h := C2_amended c0 (fun _ => none) (fun _ => none) oracle404
    ⟨404, "404 Not Found", ""⟩ (by decide) rfl rfl (Or.inl rfl)
  exact ⟨h.1, h.2.2.1, h.2.2.2⟩

/-- C4 counterexample: the claim's "joined by ID only" is false.  A registry
entry whose service_id/plan_id equal only the catalog's service/plan NAMES
(never their IDs) still resolves, because `Instances` joins through
`Catalog.Plan`, whose second pass matches by name. -/
theorem C4_counterexample :
    (Instances cat1 [("i-1", ⟨"plan-name", "svc-name", "running", 5, 6⟩)]).map
        (fun i => (i.id, i.service, i.plan)) =
      [("i-1", some ⟨"svc-id", "svc-name", [⟨"plan-id", "plan-name", "d"⟩]⟩,
        some ⟨"plan-id", "plan-name", "d"⟩)] :=
  rfl

/-- C4 amended: `Instances` keeps every registry entry — the result has one
instance per entry, carrying the entry's registry id; an entry is joined
through the full `Catalog.Plan` resolver (ID pass, then name pass), and an
entry the resolver cannot place in either pass is kept with null Service and
Plan references rather than dropped. -/
theorem C4_amended (cat : Catalog) (entries : List (String × StatusEntry)) :
    (Instances cat entries).length = entries.length ∧
    ∀ id info, (id, info) ∈ entries →
      ∃ inst, inst ∈ Instances cat entries ∧ inst.id = id ∧
        (∀ msg, cat.Plan info.serviceId info.planId = .error msg →
          inst.service = none ∧ inst.plan = none) ∧
        (∀ s p, cat.Plan info.serviceId info.planId = .ok (s, p) →
          inst.service = some s ∧ inst.plan = some p) := by
  refine ⟨List.length_map _ _, ?_⟩
  intro id info hmem
  refine ⟨_, List.mem_map_of_mem _ hmem, ?_, ?_, ?_⟩
  · cases h : cat.Plan info.serviceId info.planId with
    | ok sp => cases sp with | mk s p => simp [Instances, h]
    | error msg => simp [Instances, h]
  · intro msg h
    simp [Instances, h]
  · intro s p h
    simp [Instances, h]

/-- C4 witness: a registry entry resolvable by neither ID nor name is kept,
with its id and null references. -/
theorem C4_witness :
    (Instances cat1 [("i-2", ⟨"nope", "nada", "s", 1, 2⟩)]).length = 1 ∧
    (∃ inst, inst ∈ Instances cat1 [("i-2", ⟨"nope", "nada", "s", 1, 2⟩)] ∧
      inst.id = "i-2" ∧ inst.service = none ∧ inst.plan = none) := by
  have h := C4_amended cat1 [("i-2", ⟨"nope", "nada", "s", 1, 2⟩)]
  obtain ⟨inst, hmem, hid, hnone, _⟩ :=
    h.2 "i-2" ⟨"nope", "nada", "s", 1, 2⟩ (List.mem_singleton.mpr rfl)
  obtain ⟨hs, hp⟩ := hnone "service 'nada' / plan 'nope' not found" rfl
  exact ⟨h.1, inst, hmem, hid, hs, hp⟩

/-- Both branches of `doWithRetry`'s final match report the loop's attempt
count unchanged. -/
theorem doWithRetry_attempts (c : Client) (oracle : Oracle) :
    (c.doWithRetry oracle).attempts =
      (retryLoop oracle ((if c.maxRetries = 0 then 3 else c.maxRetries) + 1).toNat 0 none).attempts := by
  unfold Client.doWithRetry
  dsimp only
  split <;> rfl

/-- C9: zero-valued tunables select the built-in defaults at call time.
MaxRetries = 0 behaves as 3 — four physical attempts with backoffs of 1, 4
and 9 seconds against persistently retryable failures; no MaxRetries value
can produce a single non-retrying attempt; a zero Timeout builds the
transport with 30 seconds and no value builds it with zero; and an empty
BrokerAPIVersion is sent as "2.16" on versioned paths. -/
theorem C9_zero_value_defaults :
    (∀ e : GoErr, shouldRetry e = true →
      (c0.doWithRetry (fun _ => .error e)).attempts = 4 ∧
      (c0.doWithRetry (fun _ => .error e)).sleeps = [1, 4, 9]) ∧
    (∀ (c : Client) (e : GoErr), shouldRetry e = true →
      (c.doWithRetry (fun _ => .error e)).attempts ≠ 1) ∧
    (∀ w : World, (c0.doInit w).1.ua.map Transport.timeoutSecs = some 30) ∧
    (∀ (t : Int) (w : World) (tr : Transport),
      ({ c0 with timeoutSecs := t }.doInit w).1.ua = some tr → tr.timeoutSecs ≠ 0) ∧
    ("X-Broker-API-Version", "2.16") ∈ doSingleHeaders "" "/v2/catalog" := by
  refine ⟨?_, ?_, ?_, ?_, by decide⟩
  · intro e hs
    have hloop : retryLoop (fun _ => .error e) 4 0 none =
        ⟨none, some e, [1, 4, 9], 4⟩ := by
      simp [retryLoop, hs]
    have h4 : ((if c0.maxRetries = 0 then 3 else c0.maxRetries) + 1).toNat = 4 := by decide
    constructor
    · rw [doWithRetry_attempts, h4, hloop]
    · unfold Client.doWithRetry
      dsimp only
      rw [h4, hloop]
  · intro c e hs h1
    rw [doWithRetry_attempts, retryLoop_attempts_const_fail e hs] at h1
    by_cases hc : c.maxRetries = 0
    · rw [hc] at h1
      simp at h1
    · omega
  · intro w
    rfl
  · intro t w tr h
    simp only [Client.doInit, c0] at h
    have : tr.timeoutSecs = if t = 0 then 30 else t := by
      cases h
      rfl
    rw [this]
    split <;> omega

/-- C9 witness: the concrete consequences at a retryable network error. -/
theorem C9_witness :
    shouldRetry (.plain "connection refused") = true ∧
    (c0.doWithRetry (fun _ => .error (.plain "connection refused"))).attempts = 4 ∧
    (c0.doWithRetry (fun _ => .error (.plain "connection refused"))).sleeps = [1, 4, 9] ∧
    ({ c0 with maxRetries := -2 }.doWithRetry (fun _ => .error (.plain "connection refused"))).attempts ≠ 1 := by
  have h := C9_zero_value_defaults
  have hs : shouldRetry (.plain "connection refused") = true := by decide
  exact ⟨hs, (h.1 _ hs).1, (h.1 _ hs).2, h.2.1 _ _ hs⟩


/-- The nested loops of one `Catalog.Plan` pass are the in-order scan of the
flattened pairs. -/
theorem findPass_eq_find? (sM : Service → Bool) (pM : Plan → Bool) :
    ∀ l : List Service, findPass sM pM l =
      ((l.map (fun s => s.plans.map (fun p => (s, p)))).flatten).find?
        (fun sp => sM sp.1 && pM sp.2) := by
  intro l
  induction l with
  | nil => rfl
  | cons s rest ih =>
    simp only [List.map_cons, List.flatten_cons, List.find?_append, List.find?_map]
    by_cases hs : sM s
    · have hpred : ((fun sp : Service × Plan => sM sp.1 && pM sp.2) ∘ fun p => (s, p)) =
          fun p => pM p := by
        funext p
        simp [hs]
      rw [hpred]
      cases hf : s.plans.find? pM with
      | some p => simp [findPass, hs, hf]
      | none => simp [findPass, hs, hf, ih]
    · have hpred : ((fun sp : Service × Plan => sM sp.1 && pM sp.2) ∘ fun p => (s, p)) =
          fun _ => false := by
        funext p
        simp [hs]
      rw [hpred]
      have hnone : s.plans.find? (fun _ => false) = none :=
        List.find?_eq_none.mpr (by simp)
      simp [findPass, hs, hnone, ih]

/-- A list is a Boolean prefix of itself extended by anything. -/
theorem isPre_self_append (l t : List Char) : isPre l (l ++ t) = true := by
  induction l with
  | nil => rfl
  | cons c cs ih => simp [isPre, ih]

/-- The empty needle is contained in every haystack. -/
theorem containsSub_nil (t : List Char) : containsSub t [] = true := by
  cases t <;> simp [containsSub, isPre]

/-- A haystack that starts with the needle contains it. -/
theorem containsSub_here (n t : List Char) : containsSub (n ++ t) n = true := by
  cases n with
  | nil => simpa using containsSub_nil t
  | cons c cs =>
    simp [containsSub]
    exact Or.inl (by simpa using isPre_self_append (c :: cs) t)

/-- Containment survives prepending to the haystack. -/
theorem containsSub_append_left (x h n : List Char) (hc : containsSub h n = true) :
    containsSub (x ++ h) n = true := by
  induction x with
  | nil => simpa using hc
  | cons c cs ih => simp [containsSub, ih]

/-- Substring containment established through an explicit decomposition of
the character list. -/
theorem strContains_of_toList (s sub : String) (x y : List Char)
    (h : s.toList = x ++ sub.toList ++ y) : strContains s sub = true := by
  unfold strContains
  rw [h, List.append_assoc]
  exact containsSub_append_left _ _ _ (containsSub_here _ _)

/-- C7: `Catalog.Plan` is the two-pass lookup — scan the catalog's canonical
(service, plan) pairs for an ID match of both components, then for a name
match of both, returning the first pair the earlier pass finds; when both
passes fail the error message contains both input values. -/
theorem C7_two_pass_lookup (c : Catalog) (service plan : String) :
    (Catalog.Plan c service plan =
      match (catalogPairs c).find? (fun sp => sp.1.id == service && sp.2.id == plan) with
      | some sp => .ok sp
      | none =>
        match (catalogPairs c).find? (fun sp => sp.1.name == service && sp.2.name == plan) with
        | some sp => .ok sp
        | none => .error ("service '" ++ service ++ "' / plan '" ++ plan ++ "' not found")) ∧
    ∀ msg, Catalog.Plan c service plan = .error msg →
      strContains msg service = true ∧ strContains msg plan = true := by
  constructor
  · unfold Catalog.Plan catalogPairs
    rw [findPass_eq_find? (fun s => s.id == service) (fun p => p.id == plan) c.services,
      findPass_eq_find? (fun s => s.name == service) (fun p => p.name == plan) c.services]
  · intro msg h
    unfold Catalog.Plan at h
    cases hf1 : findPass (fun s => s.id == service) (fun p => p.id == plan) c.services with
    | some sp => rw [hf1] at h; cases h
    | none =>
      rw [hf1] at h
      cases hf2 : findPass (fun s => s.name == service) (fun p => p.name == plan) c.services with
      | some sp => rw [hf2] at h; cases h
      | none =>
        rw [hf2] at h
        cases h
        constructor
        · exact strContains_of_toList _ service "service '".toList
            ("' / plan '" ++ plan ++ "' not found").toList (by simp [String.toList])
        · exact strContains_of_toList _ plan
            ("service '" ++ service ++ "' / plan '").toList "' not found".toList
            (by simp [String.toList])

/-- C7 witness: the two-pass lookup and the error-message containment at an
empty catalog and at `cat1`. -/
theorem C7_witness :
    strContains "service 'x' / plan 'y' not found" "x" = true ∧
    strContains "service 'x' / plan 'y' not found" "y" = true ∧
    Catalog.Plan ⟨[]⟩ "x" "y" = .error "service 'x' / plan 'y' not found" := by
  have h := C7_two_pass_lookup ⟨[]⟩ "x" "y"
  have he : Catalog.Plan ⟨[]⟩ "x" "y" = .error "service 'x' / plan 'y' not found" := rfl
  obtain ⟨h1, h2⟩ := h.2 _ he
  exact ⟨h1, h2, he⟩

/-- The poll loop succeeds exactly when some poll reports "succeeded" after a
(possibly empty) run of "in progress" polls each of which still met the
deadline at its tick. -/
theorem waitLoop_ok_iff (ddl : Nat) :
    ∀ (polls : PollTrace) (t : Nat),
      (waitLoop ddl t polls = .ok () ↔
        ∃ k, (∀ i, i < k → ∃ p, polls.get? i = some p ∧ pollInProgress p = true ∧
              t + 5 * (i + 1) ≤ ddl) ∧
          ∃ p, polls.get? k = some p ∧ pollSucceeded p = true) := by
  intro polls
  induction polls with
  | nil =>
    intro t
    constructor
    · intro h
      simp [waitLoop] at h
    · rintro ⟨k, -, p, hp, -⟩
      simp at hp
  | cons q rest ih =>
    intro t
    cases q with
    | error e =>
      constructor
      · intro h
        simp [waitLoop] at h
      · rintro ⟨k, hC, p, hp, hs⟩
        cases k with
        | zero =>
          obtain rfl : Except.error e = p := by simpa using hp
          simp [pollSucceeded] at hs
        | succ j =>
          obtain ⟨p0, hp0, hin, -⟩ := hC 0 (Nat.succ_pos j)
          obtain rfl : Except.error e = p0 := by simpa using hp0
          simp [pollInProgress] at hin
    | ok st =>
      by_cases h1 : st.state = "succeeded"
      · constructor
        · intro _
          exact ⟨0, fun i hi => absurd hi (Nat.not_lt_zero i),
            .ok st, rfl, by simp [pollSucceeded, h1]⟩
        · intro _
          simp [waitLoop, h1]
      · by_cases h2 : st.state = "failed"
        · constructor
          · intro h
            simp [waitLoop, h1, h2] at h
          · rintro ⟨k, hC, p, hp, hs⟩
            cases k with
            | zero =>
              obtain rfl : Except.ok st = p := by simpa using hp
              simp [pollSucceeded, h1] at hs
            | succ j =>
              obtain ⟨p0, hp0, hin, -⟩ := hC 0 (Nat.succ_pos j)
              obtain rfl : Except.ok st = p0 := by simpa using hp0
              simp [pollInProgress, h2] at hin
        · by_cases h3 : st.state = "in progress"
          · by_cases hd : ddl < t + 5
            · constructor
              · intro h
                simp [waitLoop, h1, h2, h3, hd] at h
              · rintro ⟨k, hC, p, hp, hs⟩
                cases k with
                | zero =>
                  obtain rfl : Except.ok st = p := by simpa using hp
                  simp [pollSucceeded, h1] at hs
                | succ j =>
                  obtain ⟨p0, hp0, hin, hle⟩ := hC 0 (Nat.succ_pos j)
                  omega
            · have hstep : waitLoop ddl t (.ok st :: rest) = waitLoop ddl (t + 5) rest := by
                simp [waitLoop, h1, h2, h3, hd]
              rw [hstep, ih (t + 5)]
              constructor
              · rintro ⟨k, hC, p, hp, hs⟩
                refine ⟨k + 1, ?_, p, by simpa using hp, hs⟩
                intro i hi
                cases i with
                | zero =>
                  exact ⟨.ok st, rfl, by simp [pollInProgress, h3], by omega⟩
                | succ j =>
                  obtain ⟨p', hp', hin', hle'⟩ := hC j (by omega)
                  exact ⟨p', by simpa using hp', hin', by omega⟩
              · rintro ⟨k, hC, p, hp, hs⟩
                cases k with
                | zero =>
                  obtain rfl : Except.ok st = p := by simpa using hp
                  simp [pollSucceeded, h1] at hs
                | succ j =>
                  refine ⟨j, ?_, p, by simpa using hp, hs⟩
                  intro i hi
                  obtain ⟨p', hp', hin', hle'⟩ := hC (i + 1) (by omega)
                  exact ⟨p', by simpa using hp', hin', by omega⟩
          · constructor
            · intro h
              simp [waitLoop, h1, h2, h3] at h
            · rintro ⟨k, hC, p, hp, hs⟩
              cases k with
              | zero =>
                obtain rfl : Except.ok st = p := by simpa using hp
                simp [pollSucceeded, h1] at hs
              | succ j =>
                obtain ⟨p0, hp0, hin, -⟩ := hC 0 (Nat.succ_pos j)
                obtain rfl : Except.ok st = p0 := by simpa using hp0
                simp [pollInProgress, h3] at hin

/-- Running past a block of in-progress polls that meet the deadline advances
the clock five seconds per tick. -/
theorem waitLoop_skip (ddl : Nat) :
    ∀ (k : Nat) (polls : PollTrace) (t : Nat),
      (∀ i, i < k → ∃ p, polls.get? i = some p ∧ pollInProgress p = true ∧
        t + 5 * (i + 1) ≤ ddl) →
      waitLoop ddl t polls = waitLoop ddl (t + 5 * k) (polls.drop k) := by
  intro k
  induction k with
  | zero =>
    intro polls t _
    simp
  | succ j ihj =>
    intro polls t h
    obtain ⟨p, hp, hin, hle⟩ := h 0 (Nat.succ_pos j)
    cases polls with
    | nil => simp at hp
    | cons q rest =>
      obtain rfl : q = p := by simpa using hp
      cases q with
      | error e => simp [pollInProgress] at hin
      | ok st =>
        have hst : st.state = "in progress" := by simpa [pollInProgress] using hin
        have hnd : ¬(ddl < t + 5) := by omega
        have hstep : waitLoop ddl t (.ok st :: rest) = waitLoop ddl (t + 5) rest := by
          simp [waitLoop, hst, hnd]
        have harith : t + 5 + 5 * j = t + 5 * (j + 1) := by ring
        rw [hstep, ihj rest (t + 5) ?_, harith]
        · rfl
        · intro i hi
          obtain ⟨p', hp', hin', hle'⟩ := h (i + 1) (by omega)
          exact ⟨p', by simpa using hp', hin', by omega⟩

/-- A list whose k-th entry exists splits there after `drop`. -/
theorem drop_eq_cons_of_get? {α : Type} (l : List α) (k : Nat) (x : α) (h : l.get? k = some x) :
    l.drop k = x :: l.drop (k + 1) := by
  obtain ⟨hk, hx⟩ := List.get?_eq_some.mp h
  rw [List.drop_eq_getElem_cons hk]
  exact congrArg (fun y => y :: List.drop (k + 1) l) (by simpa using hx)

/-- A head poll reporting "failed" stops the loop with the broker's
description. -/
theorem waitLoop_head_failed (ddl t : Nat) (st : OpStatus) (rest : PollTrace)
    (hf : st.state = "failed") :
    waitLoop ddl t (.ok st :: rest) =
      .error (.plain ("operation failed: " ++ st.description)) := by
  simp [waitLoop, hf]

/-- A head poll reporting an unrecognized state stops the loop. -/
theorem waitLoop_head_unknown (ddl t : Nat) (st : OpStatus) (rest : PollTrace)
    (h1 : st.state ≠ "succeeded") (h2 : st.state ≠ "failed") (h3 : st.state ≠ "in progress") :
    waitLoop ddl t (.ok st :: rest) =
      .error (.plain ("unknown operation state: " ++ st.state)) := by
  simp [waitLoop, h1, h2, h3]

/-- A head poll reporting "in progress" past the deadline times out. -/
theorem waitLoop_head_timeout (ddl t : Nat) (st : OpStatus) (rest : PollTrace)
    (h3 : st.state = "in progress") (hd : ddl < t + 5) :
    waitLoop ddl t (.ok st :: rest) =
      .error (.plain ("operation timed out after " ++ toString ddl ++ "s")) := by
  have h1 : st.state ≠ "succeeded" := by rw [h3]; decide
  have h2 : st.state ≠ "failed" := by rw [h3]; decide
  simp [waitLoop, h1, h2, h3, hd]

/-- C8: the poll-to-completion helper.  (a) a zero timeout polls against the
default 30-minute (1800 s) deadline; (b) it succeeds exactly when some poll
reports "succeeded" preceded only by "in progress" polls whose ticks — 5 s
apart — met the deadline; (c) a "failed" poll is a hard error carrying the
broker's description; (d) an unrecognized state is a hard error; (e) the
deadline is checked only after a tick, so the first in-progress tick past it
times out having overrun by at most one 5 s tick; (f) `CreateAndWait` enters
polling only on a 202 with non-empty operation token, and any other 2xx
response returns synchronously without polling. -/
theorem C8_poll_to_completion :
    (∀ polls : PollTrace, waitForOperation 0 polls = waitLoop 1800 0 polls) ∧
    (∀ (timeout : Nat) (polls : PollTrace),
      (waitForOperation timeout polls = .ok () ↔
        ∃ k, (∀ i, i < k → ∃ p, polls.get? i = some p ∧ pollInProgress p = true ∧
              5 * (i + 1) ≤ (if timeout = 0 then 1800 else timeout)) ∧
          ∃ p, polls.get? k = some p ∧ pollSucceeded p = true)) ∧
    (∀ (timeout : Nat) (polls : PollTrace) (k : Nat) (st : OpStatus),
      (∀ i, i < k → ∃ p, polls.get? i = some p ∧ pollInProgress p = true ∧
        5 * (i + 1) ≤ (if timeout = 0 then 1800 else timeout)) →
      polls.get? k = some (.ok st) → st.state = "failed" →
      waitForOperation timeout polls =
        .error (.plain ("operation failed: " ++ st.description))) ∧
    (∀ (timeout : Nat) (polls : PollTrace) (k : Nat) (st : OpStatus),
      (∀ i, i < k → ∃ p, polls.get? i = some p ∧ pollInProgress p = true ∧
        5 * (i + 1) ≤ (if timeout = 0 then 1800 else timeout)) →
      polls.get? k = some (.ok st) →
      st.state ≠ "succeeded" → st.state ≠ "failed" → st.state ≠ "in progress" →
      waitForOperation timeout polls =
        .error (.plain ("unknown operation state: " ++ st.state))) ∧
    (∀ (timeout : Nat) (polls : PollTrace) (k : Nat),
      (∀ i, i ≤ k → ∃ p, polls.get? i = some p ∧ pollInProgress p = true) →
      (∀ i, i < k → 5 * (i + 1) ≤ (if timeout = 0 then 1800 else timeout)) →
      ((if timeout = 0 then 1800 else timeout) < 5 * (k + 1)) →
      waitForOperation timeout polls =
        .error (.plain ("operation timed out after " ++
          toString (if timeout = 0 then 1800 else timeout) ++ "s")) ∧
      5 * (k + 1) ≤ (if timeout = 0 then 1800 else timeout) + 5) ∧
    (∀ (id operation : String) (status : Int) (timeout : Nat) (polls : PollTrace),
      (status = 202 → operation ≠ "" → waitForOperation timeout polls = .ok () →
        CreateAndWait id (.ok (status, operation)) timeout polls = .ok id) ∧
      (status = 202 → operation ≠ "" → ∀ e, waitForOperation timeout polls = .error e →
        CreateAndWait id (.ok (status, operation)) timeout polls =
          .error (.wrap "instance creation failed" e)) ∧
      (200 ≤ status → status ≤ 299 → ¬(status = 202 ∧ operation ≠ "") →
        CreateAndWait id (.ok (status, operation)) timeout polls = .ok id)) := by
  refine ⟨fun _ => rfl, ?_, ?_, ?_, ?_, ?_⟩
  · intro timeout polls
    have h := waitLoop_ok_iff (if timeout = 0 then 1800 else timeout) polls 0
    unfold waitForOperation
    dsimp only
    simpa using h
  · intro timeout polls k st hpre hk hf
    unfold waitForOperation
    dsimp only
    rw [waitLoop_skip (if timeout = 0 then 1800 else timeout) k polls 0 ?_]
    · rw [drop_eq_cons_of_get? polls k _ hk]
      exact waitLoop_head_failed _ _ st _ hf
    · intro i hi
      obtain ⟨p, h1, h2, h3⟩ := hpre i hi
      exact ⟨p, h1, h2, by omega⟩
  · intro timeout polls k st hpre hk h1 h2 h3
    unfold waitForOperation
    dsimp only
    rw [waitLoop_skip (if timeout = 0 then 1800 else timeout) k polls 0 ?_]
    · rw [drop_eq_cons_of_get? polls k _ hk]
      exact waitLoop_head_unknown _ _ st _ h1 h2 h3
    · intro i hi
      obtain ⟨p, hh1, hh2, hh3⟩ := hpre i hi
      exact ⟨p, hh1, hh2, by omega⟩
  · intro timeout polls k hin hwithin hover
    constructor
    · unfold waitForOperation
      dsimp only
      rw [waitLoop_skip (if timeout = 0 then 1800 else timeout) k polls 0 ?_]
      · obtain ⟨p, hp, hprog⟩ := hin k (Nat.le_refl k)
        cases p with
        | error e => simp [pollInProgress] at hprog
        | ok st =>
          have hst : st.state = "in progress" := by simpa [pollInProgress] using hprog
          rw [drop_eq_cons_of_get? polls k _ hp]
          exact waitLoop_head_timeout _ _ st _ hst (by omega)
      · intro i hi
        obtain ⟨p, hh1, hh2⟩ := hin i (by omega)
        exact ⟨p, hh1, hh2, by have := hwithin i hi; omega⟩
    · cases k with
      | zero => omega
      | succ j => have := hwithin j (by omega); omega
  · intro id operation status timeout polls
    refine ⟨?_, ?_, ?_⟩
    · intro h202 hop hwo
      simp [CreateAndWait, h202, hop, hwo]
    · intro h202 hop e hwo
      simp [CreateAndWait, h202, hop, hwo]
    · intro _ _ hfalse
      simp [CreateAndWait, hfalse]

/-- C8 witness: concrete poll traces — success after one in-progress tick
under the default deadline; a timeout at the first tick past a 7 s deadline;
a failed operation surfacing through `CreateAndWait`; and a synchronous 201
response skipping the poll loop. -/
theorem C8_witness :
    waitForOperation 0 [.ok ⟨"in progress", ""⟩, .ok ⟨"succeeded", ""⟩] = .ok () ∧
    waitForOperation 7 [.ok ⟨"in progress", ""⟩, .ok ⟨"in progress", ""⟩] =
      .error (.plain "operation timed out after 7s") ∧
    CreateAndWait "i1" (.ok (202, "op")) 7 [.ok ⟨"failed", "broke"⟩] =
      .error (.wrap "instance creation failed" (.plain "operation failed: broke")) ∧
    CreateAndWait "i1" (.ok (201, "op")) 7 [.ok ⟨"failed", "broke"⟩] = .ok "i1" := by
  have h := C8_poll_to_completion
  refine ⟨?_, ?_, ?_, ?_⟩
  · refine (h.2.1 0 _).mpr ⟨1, ?_, .ok ⟨"succeeded", ""⟩, rfl, by decide⟩
    intro i hi
    have hi0 : i = 0 := by omega
    subst hi0
    exact ⟨.ok ⟨"in progress", ""⟩, rfl, by decide, by decide⟩
  · refine ((h.2.2.2.2.1 7 _ 1 ?_ ?_ (by decide)).1)
    · intro i hi
      match i, hi with
      | 0, _ => exact ⟨.ok ⟨"in progress", ""⟩, rfl, by decide⟩
      | 1, _ => exact ⟨.ok ⟨"in progress", ""⟩, rfl, by decide⟩
    · intro i hi
      have hi0 : i = 0 := by omega
      subst hi0
      decide
  · refine (h.2.2.2.2.2 "i1" "op" 202 7 _).2.1 rfl (by decide) _ ?_
    exact h.2.2.1 7 _ 0 ⟨"failed", "broke"⟩ (by intro i hi; omega) rfl rfl
  · exact (h.2.2.2.2.2 "i1" "op" 201 7 _).2.2 (by decide) (by decide) (by decide)

end Boss
